import Mathlib

/-
Verification of the PainChain Kubernetes watch connector
(backend/connectors/kubernetes/connector_watch.py) against its
natural-language specification.

The Python connector is shallowly embedded: Python dicts become
association lists, `None` becomes `Option.none`, the SQLAlchemy-backed
event table becomes a list of stored rows, and the per-observation body
of each watch loop becomes a pure step function that also returns the
ordered trace of externally visible actions (checkpoint saves, cache
writes, event-store writes).
-/

namespace PainChain

/-! ## Python dict / value helpers -/

/-- Lookup in an association list, mirroring `d.get(key)` / `key in d`. -/
def lookupA {α : Type} : List (String × α) → String → Option α
  | [], _ => none
  | (k, v) :: rest, key => if k = key then some v else lookupA rest key

/-- Update an association list, mirroring `d[key] = v`. -/
def setA {α : Type} : List (String × α) → String → α → List (String × α)
  | [], key, v => [(key, v)]
  | (k, w) :: rest, key, v =>
      if k = key then (key, v) :: rest else (k, w) :: setA rest key v

/-- Rendering of an optional string inside a Python f-string
(`None` renders as the string "None"). -/
def pyStr : Option String → String
  | some s => s
  | none => "None"

/-- Python truthiness of an optional string (`if resource_version:`):
false for `None` and for the empty string. -/
def tokenTruthy : Option String → Bool
  | some s => s ≠ ""
  | none => false

/-- Embeds `d.keys()` on a Python dict modelled as an association list. -/
def pyKeys {α : Type} (d : List (String × α)) : List String :=
  d.map Prod.fst

/-- Insert into a sorted list of strings (helper for `sorted(...)`). -/
def insertStr (x : String) : List String → List String
  | [] => [x]
  | y :: ys => if x ≤ y then x :: y :: ys else y :: insertStr x ys

/-- Python `sorted(...)` on a list of strings (insertion sort). -/
def sortedStrings : List String → List String
  | [] => []
  | x :: xs => insertStr x (sortedStrings xs)

/-! ## Data model: Kubernetes resources as seen by the connector -/

/-- The metadata fields of a watched object that the connector reads
(`resource.metadata.*`).  `creation_timestamp` is an abstract epoch
value; `none` means the field is absent and the connector falls back to
the wall clock. -/
structure ObjectMeta where
  namespace_ : Option String
  name : String
  resource_version : Option String
  labels : List (String × String)
  annotations : List (String × String)
  creation_timestamp : Option Nat
deriving DecidableEq

/-- A container port entry (`p.container_port`, `p.protocol`). -/
structure ContainerPort where
  container_port : Nat
  protocol : Option String
deriving DecidableEq

/-- Container resource requests/limits (string-valued quantity maps). -/
structure ResourceRequirements where
  requests : List (String × String)
  limits : List (String × String)
deriving DecidableEq

/-- A container in a pod or workload template spec. -/
structure Container where
  name : String
  image : String
  ports : List ContainerPort
  resources : Option ResourceRequirements
  env : List (String × String)
deriving DecidableEq

/-- A pod volume; each optional field carries the name the connector
extracts for that volume flavour (`_get_volume_type`). -/
structure Volume where
  name : String
  config_map : Option String
  secret : Option String
  persistent_volume_claim : Option String
  empty_dir : Bool
  host_path : Option String
deriving DecidableEq

/-- Embeds `cs.state.waiting`. -/
structure ContainerStateWaiting where
  reason : Option String
  message : Option String
deriving DecidableEq

/-- Embeds `cs.state.terminated`. -/
structure ContainerStateTerminated where
  reason : Option String
  exit_code : Int
deriving DecidableEq

/-- Embeds `cs.state`: at most one of waiting/terminated/running is set. -/
structure ContainerState where
  waiting : Option ContainerStateWaiting
  terminated : Option ContainerStateTerminated
  running : Bool
deriving DecidableEq

/-- One entry of `pod.status.container_statuses`. -/
structure ContainerStatus where
  name : String
  image : String
  ready : Bool
  restart_count : Nat
  state : Option ContainerState
deriving DecidableEq

/-- Embeds `pod.status`. An absent `container_statuses` (Python `None`) and an
empty list are observationally identical in the connector (both falsy),
so both are the empty list. -/
structure PodStatus where
  phase : Option String
  container_statuses : List ContainerStatus
deriving DecidableEq

/-- Embeds `pod.spec`. -/
structure PodSpec where
  node_name : Option String
  containers : List Container
  volumes : List Volume
deriving DecidableEq

/-- A pod observation object. -/
structure Pod where
  metadata : ObjectMeta
  status : PodStatus
  spec : PodSpec
deriving DecidableEq

/-- The deployment fields the connector reads:
`deployment.spec.template.spec.containers`, `deployment.spec.replicas`,
`deployment.spec.strategy.type`. -/
structure DeploymentSpec where
  containers : List Container
  replicas : Option Nat
  strategy : Option String
deriving DecidableEq

/-- A deployment observation object. -/
structure Deployment where
  metadata : ObjectMeta
  spec : DeploymentSpec
deriving DecidableEq

/-- A StatefulSet/DaemonSet observation: the connector only reads the
template containers (`resource.spec.template.spec.containers`). -/
structure Workload where
  metadata : ObjectMeta
  containers : List Container
deriving DecidableEq

/-- One entry of `service.spec.ports`; `target_port` is already the
`str(...)` rendering used by the connector. -/
structure ServicePort where
  port : Nat
  protocol : Option String
  target_port : String
deriving DecidableEq

/-- Embeds `service.spec`. The `type` attribute is called `type_` because
`type` is reserved in Lean. -/
structure ServiceSpec where
  type_ : Option String
  ports : List ServicePort
  cluster_ip : Option String
  selector : List (String × String)
deriving DecidableEq

/-- A service observation object (`service.spec` may be `None`). -/
structure Service where
  metadata : ObjectMeta
  spec : Option ServiceSpec
deriving DecidableEq

/-- A configmap observation object. -/
structure ConfigMap where
  metadata : ObjectMeta
  data : List (String × String)
  binary_data : List (String × String)
deriving DecidableEq

/-- A secret observation object; `data` maps key names to (base64)
values, `type_` is the secret's `type` attribute. -/
structure Secret where
  metadata : ObjectMeta
  data : List (String × String)
  type_ : String
deriving DecidableEq

/-- One ingress rule; only `rule.host` feeds the significance check. -/
structure IngressRule where
  host : Option String
deriving DecidableEq

/-- An ingress observation object. -/
structure Ingress where
  metadata : ObjectMeta
  rules : List IngressRule
deriving DecidableEq

/-- One RBAC policy rule of a Role. -/
structure PolicyRule where
  api_groups : List String
  resources : List String
  verbs : List String
deriving DecidableEq

/-- A Role observation object. -/
structure Role where
  metadata : ObjectMeta
  rules : List PolicyRule
deriving DecidableEq

/-- A RoleBinding subject. -/
structure Subject where
  kind : String
  name : String
  namespace_ : Option String
deriving DecidableEq

/-- A RoleBinding observation object. -/
structure RoleBinding where
  metadata : ObjectMeta
  role_ref_kind : Option String
  role_ref_name : Option String
  subjects : List Subject
deriving DecidableEq

/-! ## Engine state: the in-process cache, the persisted checkpoints,
the event store, and the trace of externally visible actions -/

/-- One value of `self._resource_cache` — a Python dict whose key set
varies by resource kind.  Each field is `none` when the corresponding
dict key is absent; a doubly-optional field distinguishes nothing
beyond what the connector's `.get` defaults can observe, so a key that
is present holding `None` and an absent key both read back as the inner
`none`. -/
structure CacheEntry where
  restart_count : Option Nat
  images : Option (List String)
  replicas : Option (Option Nat)
  svc_type : Option (Option String)
  ports : Option (List (Nat × Option String × String))
  data_hash : Option (Option String)
  keys : Option (List String)
  hosts : Option (List String)
deriving DecidableEq

/-- The empty Python dict `{}`. -/
def CacheEntry.empty : CacheEntry :=
  ⟨none, none, none, none, none, none, none, none⟩

/-- Embeds `self._resource_cache`: cache key string to per-resource dict. -/
abbrev Cache := List (String × CacheEntry)

/-- The persisted `config['resource_versions']` map of one connection:
resource kind to continuation token.  The stored value is optional
because `_save_resource_version` is invoked with `None` on expiry. -/
abbrev Checkpoints := List (String × Option String)

/-- Embeds `_save_resource_version`: set the token for one resource kind in
the connection's persisted config. -/
def save_resource_version (cks : Checkpoints) (resource_type : String)
    (resource_version : Option String) : Checkpoints :=
  setA cks resource_type resource_version

/-- Embeds `self._get_resource_versions(...)` followed by
`resource_versions.get(kind)`: the token a new session run reads for a
kind (absent key and stored `None` both read as `none`). -/
def resumeToken (cks : Checkpoints) (resource_type : String) : Option String :=
  (lookupA cks resource_type).getD none

/-- The `resource_version` argument passed to `w.stream`: included only
when the stored token is truthy (`if resource_version:`). -/
def streamResourceVersionArg (cks : Checkpoints) (resource_type : String) :
    Option String :=
  let rv := resumeToken cks resource_type
  if tokenTruthy rv then rv else none

/-- The ApiException handler shared by every watch method: HTTP 410
(Gone) clears the checkpoint of that kind by storing `None`; any other
status only logs and leaves the checkpoints untouched. -/
def watchErrorHandler (resource_type : String) (status : Nat)
    (cks : Checkpoints) : Checkpoints :=
  if status = 410 then save_resource_version cks resource_type none else cks

/-- An externally visible side effect performed while processing one
observation, in program order. -/
inductive Action where
  | saveCheckpoint (resource_type : String) (token : Option String)
  | cacheWrite (cache_key : String)
  | storeEvent (event_id : String)
deriving DecidableEq

/-! ## Stored change events (the rows `_store_*_event` insert) -/

/-- Embeds `container_info` dict built for the pod description: state/reason
fields are `none` when the corresponding key is not set. -/
structure ContainerInfo where
  name : String
  image : String
  ready : Bool
  restart_count : Nat
  state : Option String
  reason : Option String
  message : Option String
  exit_code : Option Int
deriving DecidableEq

/-- Embeds `container_spec` dict built for the pod description. -/
structure ContainerSpecInfo where
  name : String
  image : String
  ports : List ContainerPort
  requests : Option (List (String × String))
  limits : Option (List (String × String))
  env_count : Option Nat
deriving DecidableEq

/-- The `description` dict of a stored pod event. -/
structure PodDescription where
  event_type : String
  namespace_ : String
  phase : Option String
  node : Option String
  labels : List (String × String)
  annotations : List (String × String)
  container_specs : Option (List ContainerSpecInfo)
  volumes : Option (List (String × String))
  containers : Option (List ContainerInfo)
deriving DecidableEq

/-- The `description` dict of a stored deployment event. -/
structure DeploymentDescription where
  event_type : String
  namespace_ : String
  images : List (String × String)
  replicas : Option Nat
  strategy : String
deriving DecidableEq

/-- The `description` dict built by `_store_generic_event` for a
Secret: common metadata plus key names and the secret type — never the
values. -/
structure SecretDescription where
  event_type : String
  namespace_ : String
  resource_kind : String
  labels : List (String × String)
  annotations : List (String × String)
  data_keys : List String
  type_ : String
deriving DecidableEq

/-- The kind-specific structured description of a stored event. -/
inductive Description where
  | pod (d : PodDescription)
  | deployment (d : DeploymentDescription)
  | secret (d : SecretDescription)
deriving DecidableEq

/-- One row of the ChangeEvent table, with the columns the connector
fills in.  `timestamp` is `none` when the resource carried no creation
timestamp and the connector substitutes the wall clock. -/
structure StoredEvent where
  source : String
  event_id : String
  title : String
  description : Description
  author : String
  timestamp : Option Nat
  url : String
  status : String
  meta_cluster : String
  meta_namespace : String
  meta_resource_type : String
  meta_labels : List (String × String)
  connection_id : Nat
deriving DecidableEq

/-- The ChangeEvent table. -/
abbrev EventDB := List StoredEvent

/-- The duplicate check `session.query(ChangeEvent).filter_by(
connection_id=..., event_id=...).first()` run before every insert. -/
def dbHas (db : EventDB) (connection_id : Nat) (event_id : String) : Bool :=
  db.any fun r => r.connection_id = connection_id ∧ r.event_id = event_id

/-- Result of processing one streamed observation: updated checkpoint
map, cache, event table, and the ordered action trace. -/
structure StepResult where
  checkpoints : Checkpoints
  cache : Cache
  db : EventDB
  trace : List Action
deriving DecidableEq

/-! ## Significance filters (`_is_significant_*` / `_has_*_changes`)

Each filter returns the boolean decision, the possibly updated cache,
and the cache-write actions it performed, in program order. -/

/-- The waiting-state reasons `_is_significant_pod_event` treats as
significant. -/
def significant_waiting_reasons : List String :=
  ["CrashLoopBackOff", "ImagePullBackOff", "ErrImagePull",
   "CreateContainerConfigError", "InvalidImageName"]

/-- The terminated-state reasons `_is_significant_pod_event` treats as
significant. -/
def significant_terminated_reasons : List String := ["Error", "OOMKilled"]

/-- The waiting-reason test of one container status
(`cs.state and cs.state.waiting` and `reason in [...]`). -/
def waitingReasonSignificant (cs : ContainerStatus) : Bool :=
  match cs.state with
  | some st =>
    match st.waiting with
    | some w =>
      match w.reason with
      | some r => significant_waiting_reasons.contains r
      | none => false
    | none => false
  | none => false

/-- The terminated-reason test of one container status. -/
def terminatedReasonSignificant (cs : ContainerStatus) : Bool :=
  match cs.state with
  | some st =>
    match st.terminated with
    | some t =>
      match t.reason with
      | some r => significant_terminated_reasons.contains r
      | none => false
    | none => false
  | none => false

/-- The `for cs in status.container_statuses` loop of
`_is_significant_pod_event`: the first container status with a
significant waiting reason, a significant terminated reason, or a
restart count above the cached one returns true (the restart branch
also records the new count in the cache under `cache_key`). -/
def podStatusCheck (cache : Cache) (cache_key : String) :
    List ContainerStatus → Bool × Cache × List Action
  | [] => (false, cache, [])
  | cs :: rest =>
    if waitingReasonSignificant cs then (true, cache, [])
    else if terminatedReasonSignificant cs then (true, cache, [])
    else if 0 < cs.restart_count then
      let cached_restart_count :=
        (((lookupA cache cache_key).getD CacheEntry.empty).restart_count).getD 0
      if cached_restart_count < cs.restart_count then
        (true,
         setA cache cache_key
           { (lookupA cache cache_key).getD CacheEntry.empty with
             restart_count := some cs.restart_count },
         [Action.cacheWrite cache_key])
      else podStatusCheck cache cache_key rest
    else podStatusCheck cache cache_key rest

/-- Embeds `_is_significant_pod_event`: ADDED and DELETED are always
significant; MODIFIED is significant when a container status shows a
tracked failure state or an increased restart count. -/
def is_significant_pod_event (cache : Cache) (event_type : String)
    (pod : Pod) : Bool × Cache × List Action :=
  if event_type = "ADDED" ∨ event_type = "DELETED" then (true, cache, [])
  else if event_type = "MODIFIED" then
    let cache_key := pyStr pod.metadata.namespace_ ++ ":" ++ pod.metadata.name
    podStatusCheck cache cache_key pod.status.container_statuses
  else (false, cache, [])

/-- Embeds `_is_significant_deployment_event`: ADDED and DELETED are always
significant; MODIFIED is significant when the image list or the
replica count differs from the cached entry, in which case the cache
entry is replaced with the new images and replicas. -/
def is_significant_deployment_event (cache : Cache) (event_type : String)
    (deployment : Deployment) : Bool × Cache × List Action :=
  if event_type = "ADDED" ∨ event_type = "DELETED" then (true, cache, [])
  else if event_type = "MODIFIED" then
    let cache_key :=
      pyStr deployment.metadata.namespace_ ++ ":" ++ deployment.metadata.name
    let current_images := deployment.spec.containers.map Container.image
    let cached_data := (lookupA cache cache_key).getD CacheEntry.empty
    let cached_images := cached_data.images.getD []
    if current_images ≠ cached_images then
      (true,
       setA cache cache_key
         { CacheEntry.empty with images := some current_images,
                                 replicas := some deployment.spec.replicas },
       [Action.cacheWrite cache_key])
    else
      let cached_replicas := cached_data.replicas.getD none
      if deployment.spec.replicas ≠ cached_replicas then
        (true,
         setA cache cache_key
           { CacheEntry.empty with images := some current_images,
                                   replicas := some deployment.spec.replicas },
         [Action.cacheWrite cache_key])
      else (false, cache, [])
  else (false, cache, [])

/-- Embeds `_has_significant_workload_changes` (StatefulSet/DaemonSet):
MODIFIED is significant when the template image list differs from the
cached one. -/
def has_significant_workload_changes (cache : Cache) (event_type : String)
    (resource : Workload) (resource_kind : String) : Bool × Cache × List Action :=
  if event_type ≠ "MODIFIED" then (false, cache, [])
  else
    let cache_key := pyStr resource.metadata.namespace_ ++ ":" ++
      resource.metadata.name ++ ":" ++ resource_kind
    let current_images := resource.containers.map Container.image
    let cached_images :=
      ((lookupA cache cache_key).getD CacheEntry.empty).images.getD []
    if current_images ≠ cached_images then
      (true,
       setA cache cache_key { CacheEntry.empty with images := some current_images },
       [Action.cacheWrite cache_key])
    else (false, cache, [])

/-- Embeds `_has_significant_service_changes`: MODIFIED is significant when
the service type or the (port, protocol, target_port) tuples differ
from the cached entry.  An absent cached `ports` key compares unequal
to any current (possibly empty) port list, as in Python. -/
def has_significant_service_changes (cache : Cache) (event_type : String)
    (service : Service) : Bool × Cache × List Action :=
  if event_type ≠ "MODIFIED" then (false, cache, [])
  else
    let cache_key := pyStr service.metadata.namespace_ ++ ":" ++
      service.metadata.name ++ ":service"
    let current_type : Option String :=
      match service.spec with
      | some sp => sp.type_
      | none => none
    let current_ports : List (Nat × Option String × String) :=
      match service.spec with
      | some sp => sp.ports.map fun p => (p.port, p.protocol, p.target_port)
      | none => []
    let cached_data := (lookupA cache cache_key).getD CacheEntry.empty
    if current_type ≠ cached_data.svc_type.getD none ∨
        some current_ports ≠ cached_data.ports then
      (true,
       setA cache cache_key
         { CacheEntry.empty with svc_type := some current_type,
                                 ports := some current_ports },
       [Action.cacheWrite cache_key])
    else (false, cache, [])

/-- Insert into a list of pairs sorted by key (helper for
`json.dumps(..., sort_keys=True)`). -/
def insertPair (x : String × String) :
    List (String × String) → List (String × String)
  | [] => [x]
  | y :: ys => if x.1 ≤ y.1 then x :: y :: ys else y :: insertPair x ys

/-- Sort an association list by key. -/
def sortPairsByKey : List (String × String) → List (String × String)
  | [] => []
  | x :: xs => insertPair x (sortPairsByKey xs)

/-- Embeds `json.dumps(data, sort_keys=True)` on a flat string-to-string
dict: a canonical rendering with the keys in sorted order. -/
def json_dumps_sorted (d : List (String × String)) : String :=
  "\x7b" ++
    String.intercalate ", "
      ((sortPairsByKey d).map fun kv => "\"" ++ kv.1 ++ "\": \"" ++ kv.2 ++ "\"")
    ++ "\x7d"

/-- Embeds `_has_configmap_data_changes`: MODIFIED is significant when the
digest of the (canonically serialized) data differs from the cached
digest.  The md5 digest itself is an abstract parameter of the model. -/
def has_configmap_data_changes (digest : String → String) (cache : Cache)
    (event_type : String) (cm : ConfigMap) : Bool × Cache × List Action :=
  if event_type ≠ "MODIFIED" then (false, cache, [])
  else
    let cache_key := pyStr cm.metadata.namespace_ ++ ":" ++
      cm.metadata.name ++ ":configmap"
    let data_hash : Option String :=
      if cm.data.isEmpty then none
      else some (digest (json_dumps_sorted cm.data))
    let cached_hash :=
      ((lookupA cache cache_key).getD CacheEntry.empty).data_hash.getD none
    if data_hash ≠ cached_hash then
      (true,
       setA cache cache_key { CacheEntry.empty with data_hash := some data_hash },
       [Action.cacheWrite cache_key])
    else (false, cache, [])

/-- Embeds `_has_secret_key_changes`: MODIFIED is significant when the sorted
key list of the secret's data differs from the cached key list; the
values are never consulted. -/
def has_secret_key_changes (cache : Cache) (event_type : String)
    (s : Secret) : Bool × Cache × List Action :=
  if event_type ≠ "MODIFIED" then (false, cache, [])
  else
    let cache_key := pyStr s.metadata.namespace_ ++ ":" ++
      s.metadata.name ++ ":secret"
    let current_keys :=
      if s.data.isEmpty then [] else sortedStrings (pyKeys s.data)
    let cached_keys :=
      ((lookupA cache cache_key).getD CacheEntry.empty).keys.getD []
    if current_keys ≠ cached_keys then
      (true,
       setA cache cache_key { CacheEntry.empty with keys := some current_keys },
       [Action.cacheWrite cache_key])
    else (false, cache, [])

/-- Embeds `_has_ingress_rule_changes`: MODIFIED is significant when the
sorted list of truthy rule hosts differs from the cached one. -/
def has_ingress_rule_changes (cache : Cache) (event_type : String)
    (ingress : Ingress) : Bool × Cache × List Action :=
  if event_type ≠ "MODIFIED" then (false, cache, [])
  else
    let cache_key := pyStr ingress.metadata.namespace_ ++ ":" ++
      ingress.metadata.name ++ ":ingress"
    let current_hosts :=
      sortedStrings ((ingress.rules.filterMap IngressRule.host).filter
        fun h => h ≠ "")
    let cached_hosts :=
      ((lookupA cache cache_key).getD CacheEntry.empty).hosts.getD []
    if current_hosts ≠ cached_hosts then
      (true,
       setA cache cache_key { CacheEntry.empty with hosts := some current_hosts },
       [Action.cacheWrite cache_key])
    else (false, cache, [])

/-! ## Event normalization and idempotent storage (`_store_*_event`) -/

/-- Embeds `_get_volume_type`: the flavour string of a pod volume. -/
def get_volume_type (v : Volume) : String :=
  match v.config_map with
  | some n => "configMap:" ++ n
  | none =>
    match v.secret with
    | some n => "secret:" ++ n
    | none =>
      match v.persistent_volume_claim with
      | some n => "pvc:" ++ n
      | none =>
        if v.empty_dir then "emptyDir"
        else
          match v.host_path with
          | some p => "hostPath:" ++ p
          | none => "other"

/-- The deterministic pod `event_id`:
cluster, namespace, kind, name and continuation token. -/
def podEventId (cluster_name : String) (pod : Pod) : String :=
  cluster_name ++ ":" ++ pyStr pod.metadata.namespace_ ++ ":pod:" ++
    pod.metadata.name ++ ":" ++ pyStr pod.metadata.resource_version

/-- The `container_spec` dict of one spec container in the pod
description. -/
def containerSpecOf (c : Container) : ContainerSpecInfo :=
  { name := c.name
    image := c.image
    ports := c.ports
    requests :=
      match c.resources with
      | some r => if r.requests.isEmpty then none else some r.requests
      | none => none
    limits :=
      match c.resources with
      | some r => if r.limits.isEmpty then none else some r.limits
      | none => none
    env_count := if c.env.isEmpty then none else some c.env.length }

/-- The `container_info` dict of one container status in the pod
description. -/
def containerInfoOf (cs : ContainerStatus) : ContainerInfo :=
  let base : ContainerInfo :=
    { name := cs.name, image := cs.image, ready := cs.ready,
      restart_count := cs.restart_count,
      state := none, reason := none, message := none, exit_code := none }
  match cs.state with
  | none => base
  | some st =>
    match st.waiting with
    | some w => { base with state := some "waiting", reason := w.reason,
                            message := w.message }
    | none =>
      match st.terminated with
      | some t => { base with state := some "terminated", reason := t.reason,
                              exit_code := some t.exit_code }
      | none => if st.running then { base with state := some "running" } else base

/-- The structured description `_store_pod_event` builds. -/
def podDescriptionOf (event_type : String) (pod : Pod) : PodDescription :=
  { event_type := event_type
    namespace_ := pyStr pod.metadata.namespace_
    phase := pod.status.phase
    node := pod.spec.node_name
    labels := pod.metadata.labels
    annotations := pod.metadata.annotations
    container_specs :=
      if pod.spec.containers.isEmpty then none
      else some (pod.spec.containers.map containerSpecOf)
    volumes :=
      if pod.spec.volumes.isEmpty then none
      else some (pod.spec.volumes.map fun v => (v.name, get_volume_type v))
    containers :=
      if pod.status.container_statuses.isEmpty then none
      else some (pod.status.container_statuses.map containerInfoOf) }

/-- The "most interesting reason" scan over the container statuses used
for a MODIFIED pod title: the first waiting or terminated reason wins,
else "Updated". -/
def podTitleReason : List ContainerStatus → String
  | [] => "Updated"
  | cs :: rest =>
    match cs.state with
    | some st =>
      match st.waiting with
      | some w => pyStr w.reason
      | none =>
        match st.terminated with
        | some t => pyStr t.reason
        | none => podTitleReason rest
    | none => podTitleReason rest

/-- The title of a stored pod event. -/
def podTitle (event_type : String) (pod : Pod) : String :=
  if event_type = "DELETED" then "[Pod Deleted] " ++ pod.metadata.name
  else if event_type = "ADDED" then "[Pod Created] " ++ pod.metadata.name
  else "[Pod " ++ podTitleReason pod.status.container_statuses ++ "] " ++
    pod.metadata.name

/-- The ChangeEvent row `_store_pod_event` inserts. -/
def buildPodEvent (cluster_name : String) (connection_id : Nat)
    (event_type : String) (pod : Pod) : StoredEvent :=
  { source := "kubernetes"
    event_id := podEventId cluster_name pod
    title := podTitle event_type pod
    description := Description.pod (podDescriptionOf event_type pod)
    author := "kubernetes/" ++ pyStr pod.metadata.namespace_
    timestamp := pod.metadata.creation_timestamp
    url := "k8s://" ++ cluster_name ++ "/" ++ pyStr pod.metadata.namespace_ ++
      "/pods/" ++ pod.metadata.name
    status := event_type.toLower
    meta_cluster := cluster_name
    meta_namespace := pyStr pod.metadata.namespace_
    meta_resource_type := "pod"
    meta_labels := pod.metadata.labels
    connection_id := connection_id }

/-- Embeds `_store_pod_event`: compute the deterministic event id, skip the
insert when a row with the same (connection_id, event_id) exists,
otherwise append the new row. -/
def store_pod_event (cluster_name : String) (db : EventDB)
    (connection_id : Nat) (event_type : String) (pod : Pod) : EventDB :=
  let event_id := podEventId cluster_name pod
  if dbHas db connection_id event_id then db
  else db ++ [buildPodEvent cluster_name connection_id event_type pod]

/-- The deterministic deployment `event_id`. -/
def deploymentEventId (cluster_name : String) (d : Deployment) : String :=
  cluster_name ++ ":" ++ pyStr d.metadata.namespace_ ++ ":deployment:" ++
    d.metadata.name ++ ":" ++ pyStr d.metadata.resource_version

/-- The title of a stored deployment event. -/
def deploymentTitle (event_type : String) (d : Deployment) : String :=
  if event_type = "DELETED" then "[Deployment Deleted] " ++ d.metadata.name
  else if event_type = "ADDED" then "[Deployment Created] " ++ d.metadata.name
  else "[Deployment Updated] " ++ d.metadata.name

/-- The ChangeEvent row `_store_deployment_event` inserts. -/
def buildDeploymentEvent (cluster_name : String) (connection_id : Nat)
    (event_type : String) (d : Deployment) : StoredEvent :=
  { source := "kubernetes"
    event_id := deploymentEventId cluster_name d
    title := deploymentTitle event_type d
    description := Description.deployment
      { event_type := event_type
        namespace_ := pyStr d.metadata.namespace_
        images := d.spec.containers.map fun c => (c.name, c.image)
        replicas := d.spec.replicas
        strategy := d.spec.strategy.getD "RollingUpdate" }
    author := "kubernetes/" ++ pyStr d.metadata.namespace_
    timestamp := d.metadata.creation_timestamp
    url := "k8s://" ++ cluster_name ++ "/" ++ pyStr d.metadata.namespace_ ++
      "/deployments/" ++ d.metadata.name
    status := event_type.toLower
    meta_cluster := cluster_name
    meta_namespace := pyStr d.metadata.namespace_
    meta_resource_type := "deployment"
    meta_labels := d.metadata.labels
    connection_id := connection_id }

/-- Embeds `_store_deployment_event` with its duplicate check. -/
def store_deployment_event (cluster_name : String) (db : EventDB)
    (connection_id : Nat) (event_type : String) (d : Deployment) : EventDB :=
  let event_id := deploymentEventId cluster_name d
  if dbHas db connection_id event_id then db
  else db ++ [buildDeploymentEvent cluster_name connection_id event_type d]

/-- Embeds `resource.metadata.namespace or "cluster"` (the namespace used in
generic event ids, authors and urls). -/
def nsOrCluster : Option String → String
  | some s => if s = "" then "cluster" else s
  | none => "cluster"

/-- Embeds `resource.metadata.namespace if resource.metadata.namespace else
"cluster-wide"` (the namespace stored in generic descriptions). -/
def nsOrClusterWide : Option String → String
  | some s => if s = "" then "cluster-wide" else s
  | none => "cluster-wide"

/-- The deterministic `event_id` built by `_store_generic_event`. -/
def genericEventId (cluster_name : String) (resource_kind_lower : String)
    (meta : ObjectMeta) : String :=
  cluster_name ++ ":" ++ nsOrCluster meta.namespace_ ++ ":" ++
    resource_kind_lower ++ ":" ++ meta.name ++ ":" ++
    pyStr meta.resource_version

/-- The title built by `_store_generic_event`. -/
def genericTitle (resource_kind : String) (event_type : String)
    (name : String) : String :=
  if event_type = "DELETED" then "[" ++ resource_kind ++ " Deleted] " ++ name
  else if event_type = "ADDED" then "[" ++ resource_kind ++ " Created] " ++ name
  else "[" ++ resource_kind ++ " Updated] " ++ name

/-- The Secret branch of the description built by
`_store_generic_event`: key names and the secret type only, never the
values. -/
def secretDescriptionOf (event_type : String) (s : Secret) : SecretDescription :=
  { event_type := event_type
    namespace_ := nsOrClusterWide s.metadata.namespace_
    resource_kind := "Secret"
    labels := s.metadata.labels
    annotations := s.metadata.annotations
    data_keys := if s.data.isEmpty then [] else pyKeys s.data
    type_ := s.type_ }

/-- The ChangeEvent row `_store_generic_event` inserts for a Secret. -/
def buildSecretEvent (cluster_name : String) (connection_id : Nat)
    (event_type : String) (s : Secret) : StoredEvent :=
  let ns := nsOrCluster s.metadata.namespace_
  { source := "kubernetes"
    event_id := genericEventId cluster_name "secret" s.metadata
    title := genericTitle "Secret" event_type s.metadata.name
    description := Description.secret (secretDescriptionOf event_type s)
    author := "kubernetes/" ++ ns
    timestamp := s.metadata.creation_timestamp
    url := "k8s://" ++ cluster_name ++ "/" ++ ns ++ "/secrets/" ++
      s.metadata.name
    status := event_type.toLower
    meta_cluster := cluster_name
    meta_namespace := ns
    meta_resource_type := "secret"
    meta_labels := s.metadata.labels
    connection_id := connection_id }

/-- Embeds `_store_generic_event` instantiated at kind Secret, with its
duplicate check. -/
def store_secret_event (cluster_name : String) (db : EventDB)
    (connection_id : Nat) (event_type : String) (s : Secret) : EventDB :=
  let event_id := genericEventId cluster_name "secret" s.metadata
  if dbHas db connection_id event_id then db
  else db ++ [buildSecretEvent cluster_name connection_id event_type s]

/-! ## Watch-session step functions

Each `watch*Step` is the body of one `for event in w.stream(...)`
iteration of the corresponding `_watch_*` method, in program order:
persist the observation's resourceVersion checkpoint (when truthy),
evaluate the significance filter, store the event when significant. -/

/-- One `_watch_pods` stream iteration. -/
def watchPodsStep (cluster_name : String) (connection_id : Nat)
    (cks : Checkpoints) (cache : Cache) (db : EventDB)
    (event_type : String) (pod : Pod) : StepResult :=
  let saveStep :=
    if tokenTruthy pod.metadata.resource_version then
      (save_resource_version cks "pods" pod.metadata.resource_version,
       [Action.saveCheckpoint "pods" pod.metadata.resource_version])
    else (cks, [])
  let sigStep := is_significant_pod_event cache event_type pod
  let storeStep :=
    if sigStep.1 then
      (store_pod_event cluster_name db connection_id event_type pod,
       [Action.storeEvent (podEventId cluster_name pod)])
    else (db, [])
  ⟨saveStep.1, sigStep.2.1, storeStep.1,
    saveStep.2 ++ sigStep.2.2 ++ storeStep.2⟩

/-- One `_watch_deployments` stream iteration. -/
def watchDeploymentsStep (cluster_name : String) (connection_id : Nat)
    (cks : Checkpoints) (cache : Cache) (db : EventDB)
    (event_type : String) (d : Deployment) : StepResult :=
  let saveStep :=
    if tokenTruthy d.metadata.resource_version then
      (save_resource_version cks "deployments" d.metadata.resource_version,
       [Action.saveCheckpoint "deployments" d.metadata.resource_version])
    else (cks, [])
  let sigStep := is_significant_deployment_event cache event_type d
  let storeStep :=
    if sigStep.1 then
      (store_deployment_event cluster_name db connection_id event_type d,
       [Action.storeEvent (deploymentEventId cluster_name d)])
    else (db, [])
  ⟨saveStep.1, sigStep.2.1, storeStep.1,
    saveStep.2 ++ sigStep.2.2 ++ storeStep.2⟩

/-- One `_watch_secrets` stream iteration.  A secret of type
`kubernetes.io/service-account-token` is skipped before anything else
happens (`continue`); otherwise the checkpoint is saved and the event
is stored when it is an ADDED/DELETED transition or the key set
changed. -/
def watchSecretsStep (cluster_name : String) (connection_id : Nat)
    (cks : Checkpoints) (cache : Cache) (db : EventDB)
    (event_type : String) (s : Secret) : StepResult :=
  if s.type_ = "kubernetes.io/service-account-token" then ⟨cks, cache, db, []⟩
  else
    let saveStep :=
      if tokenTruthy s.metadata.resource_version then
        (save_resource_version cks "secrets" s.metadata.resource_version,
         [Action.saveCheckpoint "secrets" s.metadata.resource_version])
      else (cks, [])
    let emitStep :=
      if event_type = "ADDED" ∨ event_type = "DELETED" then (true, cache, [])
      else has_secret_key_changes cache event_type s
    let storeStep :=
      if emitStep.1 then
        (store_secret_event cluster_name db connection_id event_type s,
         [Action.storeEvent (genericEventId cluster_name "secret" s.metadata)])
      else (db, [])
    ⟨saveStep.1, emitStep.2.1, storeStep.1,
      saveStep.2 ++ emitStep.2.2 ++ storeStep.2⟩

/-- One `_watch_roles` stream iteration, abstracted to its checkpoint
update and action trace ("RBAC changes are always significant": every
ADDED/MODIFIED/DELETED observation is handed to
`_store_generic_event`, with no cache consultation). -/
def watchRolesStep (cluster_name : String) (cks : Checkpoints)
    (cache : Cache) (event_type : String) (role : Role) :
    Checkpoints × Cache × List Action :=
  let saveStep :=
    if tokenTruthy role.metadata.resource_version then
      (save_resource_version cks "roles" role.metadata.resource_version,
       [Action.saveCheckpoint "roles" role.metadata.resource_version])
    else (cks, [])
  let storeTrace :=
    if event_type = "ADDED" ∨ event_type = "MODIFIED" ∨ event_type = "DELETED"
    then [Action.storeEvent (genericEventId cluster_name "role" role.metadata)]
    else []
  (saveStep.1, cache, saveStep.2 ++ storeTrace)

/-- One `_watch_rolebindings` stream iteration, abstracted like
`watchRolesStep`. -/
def watchRoleBindingsStep (cluster_name : String) (cks : Checkpoints)
    (cache : Cache) (event_type : String) (rb : RoleBinding) :
    Checkpoints × Cache × List Action :=
  let saveStep :=
    if tokenTruthy rb.metadata.resource_version then
      (save_resource_version cks "rolebindings" rb.metadata.resource_version,
       [Action.saveCheckpoint "rolebindings" rb.metadata.resource_version])
    else (cks, [])
  let storeTrace :=
    if event_type = "ADDED" ∨ event_type = "MODIFIED" ∨ event_type = "DELETED"
    then [Action.storeEvent
      (genericEventId cluster_name "rolebinding" rb.metadata)]
    else []
  (saveStep.1, cache, saveStep.2 ++ storeTrace)

/-! ## Emit decisions of the remaining watch loops

The boolean guard in front of `_store_generic_event` in each loop. -/

/-- Embeds `_watch_statefulsets`: store on ADDED/DELETED or significant
workload changes. -/
def statefulsetEmitDecision (cache : Cache) (event_type : String)
    (ss : Workload) : Bool :=
  if event_type = "ADDED" ∨ event_type = "DELETED" then true
  else (has_significant_workload_changes cache event_type ss "statefulset").1

/-- Embeds `_watch_daemonsets`: store on ADDED/DELETED or significant
workload changes. -/
def daemonsetEmitDecision (cache : Cache) (event_type : String)
    (ds : Workload) : Bool :=
  if event_type = "ADDED" ∨ event_type = "DELETED" then true
  else (has_significant_workload_changes cache event_type ds "daemonset").1

/-- Embeds `_watch_services`: store on ADDED/DELETED or significant service
changes. -/
def serviceEmitDecision (cache : Cache) (event_type : String)
    (svc : Service) : Bool :=
  if event_type = "ADDED" ∨ event_type = "DELETED" then true
  else (has_significant_service_changes cache event_type svc).1

/-- Embeds `_watch_configmaps`: store on ADDED/DELETED or a changed data
digest. -/
def configmapEmitDecision (digest : String → String) (cache : Cache)
    (event_type : String) (cm : ConfigMap) : Bool :=
  if event_type = "ADDED" ∨ event_type = "DELETED" then true
  else (has_configmap_data_changes digest cache event_type cm).1

/-- Embeds `_watch_ingresses`: store on ADDED/DELETED or changed rule
hosts. -/
def ingressEmitDecision (cache : Cache) (event_type : String)
    (ing : Ingress) : Bool :=
  if event_type = "ADDED" ∨ event_type = "DELETED" then true
  else (has_ingress_rule_changes cache event_type ing).1

/-! ## Connector configuration and the namespace filter -/

/-- The configuration of one connector instance (`self.cluster_name`,
`self.namespaces`). -/
structure ConnectorConfig where
  cluster_name : String
  namespaces : List String
deriving DecidableEq

/-- Embeds `get_namespaces`: the configured namespace list when non-empty,
otherwise every namespace reported by the cluster API (supplied here as
`cluster_namespaces`). -/
def get_namespaces (c : ConnectorConfig) (cluster_namespaces : List String) :
    List String :=
  if c.namespaces.isEmpty then cluster_namespaces else c.namespaces

/-- One `_watch_pods` stream iteration with the connector's full
configuration in scope.  The watch path opens the stream with
`list_pod_for_all_namespaces` and never consults `self.namespaces`. -/
def connectorWatchPodsStep (c : ConnectorConfig) (connection_id : Nat)
    (cks : Checkpoints) (cache : Cache) (db : EventDB)
    (event_type : String) (pod : Pod) : StepResult :=
  watchPodsStep c.cluster_name connection_id cks cache db event_type pod

/-! ## The outer polling loop (`main()` of the connector service) -/

/-- One externally visible step of the polling loop. -/
inductive LoopAction where
  | runSync
  | sleep (seconds : Nat)
deriving DecidableEq

/-- The `while True` loop of the connector entrypoint, observed for `n`
cycles: each cycle runs one sync invocation (every watch session, in
parallel, for a bounded duration) and then sleeps `poll_interval`
seconds — on success and on error alike. -/
def pollLoopTrace (poll_interval : Nat) : Nat → List LoopAction
  | 0 => []
  | n + 1 =>
    LoopAction.runSync :: LoopAction.sleep poll_interval ::
      pollLoopTrace poll_interval n

/-- The default `poll_interval` of the connector settings. -/
def default_poll_interval : Nat := 300

/-! ## Trace-order predicates -/

/-- Is the action a checkpoint save? -/
def Action.isSave : Action → Bool
  | .saveCheckpoint _ _ => true
  | _ => false

/-- Is the action an event-store write? -/
def Action.isStore : Action → Bool
  | .storeEvent _ => true
  | _ => false

/-- Holds when every checkpoint save in the trace comes after every
event-store write — the ordering the specification claims. -/
def checkpointSavedLast : List Action → Bool
  | [] => true
  | a :: rest =>
    (if a.isSave then !(rest.any Action.isStore) else true) &&
      checkpointSavedLast rest

/-- Holds when every checkpoint save in the trace comes before every
event-store write — the ordering the code uses. -/
def checkpointSavedFirst : List Action → Bool
  | [] => true
  | a :: rest =>
    (if a.isStore then !(rest.any Action.isSave) else true) &&
      checkpointSavedFirst rest

/-- No two sync runs are adjacent in the loop trace: a reconnection is
always preceded by a sleep. -/
def syncsSeparatedBySleep : List LoopAction → Bool
  | LoopAction.runSync :: LoopAction.runSync :: _ => false
  | _ :: rest => syncsSeparatedBySleep rest
  | [] => true

/-- Every sleep in the loop trace is for a positive duration. -/
def allSleepsPositive : List LoopAction → Bool
  | [] => true
  | LoopAction.sleep s :: rest => decide (0 < s) && allSleepsPositive rest
  | _ :: rest => allSleepsPositive rest

/-! ## Example observations used by witnesses and counterexamples -/

/-- Metadata of the example resources. -/
def exampleMeta (ns name rv : String) : ObjectMeta :=
  ⟨some ns, name, some rv, [], [], some 100⟩

/-- A pod in namespace `dev` whose container is in CrashLoopBackOff
with three restarts. -/
def crashPodExample : Pod :=
  { metadata := exampleMeta "dev" "api-1" "42"
    status :=
      { phase := some "Running"
        container_statuses :=
          [{ name := "api", image := "app:1.0", ready := false,
             restart_count := 3,
             state := some
               { waiting := some { reason := some "CrashLoopBackOff",
                                   message := none }
                 terminated := none, running := false } }] }
    spec := { node_name := some "n1", containers := [], volumes := [] } }

/-- A bare container running image `app:1.0`. -/
def webContainer10 : Container :=
  { name := "web", image := "app:1.0", ports := [], resources := none,
    env := [] }

/-- The same container bumped to image `app:1.1`. -/
def webContainer11 : Container :=
  { name := "web", image := "app:1.1", ports := [], resources := none,
    env := [] }

/-- The workload of the spec scenario at image `app:1.0`, replicas 3. -/
def deployExample10 : Deployment :=
  { metadata := exampleMeta "dev" "web" "7"
    spec := { containers := [webContainer10], replicas := some 3,
              strategy := none } }

/-- The same workload later observed at image `app:1.1`. -/
def deployExample11 : Deployment :=
  { metadata := exampleMeta "dev" "web" "8"
    spec := { containers := [webContainer11], replicas := some 3,
              strategy := none } }

/-- A cache holding the scenario's cached summary: image `app:1.0`,
replicas 3, under the identity key of the example workload. -/
def cacheExample10 : Cache :=
  [("dev:web",
    { CacheEntry.empty with images := some ["app:1.0"],
                            replicas := some (some 3) })]

/-- An example user secret with two keys. -/
def secretExample (v1 v2 : String) : Secret :=
  { metadata := exampleMeta "dev" "db-creds" "51"
    data := [("username", v1), ("password", v2)]
    type_ := "Opaque" }

/-- An example role. -/
def roleExample : Role :=
  { metadata := exampleMeta "dev" "reader" "61"
    rules := [{ api_groups := [""], resources := ["pods"],
                verbs := ["get", "list"] }] }

/-- An example role binding. -/
def roleBindingExample : RoleBinding :=
  { metadata := exampleMeta "dev" "reader-binding" "62"
    role_ref_kind := some "Role", role_ref_name := some "reader"
    subjects := [{ kind := "User", name := "alice", namespace_ := some "dev" }] }

/-! ## Derived predicates used by the theorems -/

/-- The row-key predicate of the duplicate check in `_store_*_event`. -/
def eventKeyMatch (connection_id : Nat) (event_id : String)
    (r : StoredEvent) : Bool :=
  r.connection_id = connection_id ∧ r.event_id = event_id

/-- Number of stored rows with the given (connection_id, event_id). -/
def dbCount (db : EventDB) (connection_id : Nat) (event_id : String) : Nat :=
  (db.filter (eventKeyMatch connection_id event_id)).length

/-- The trace contains only cache writes (no checkpoint save, no event
write). -/
def cacheOnly (tr : List Action) : Bool :=
  tr.all fun a => !a.isSave && !a.isStore

/-! ## Shared lemmas -/

theorem lookupA_setA {α : Type} (m : List (String × α)) (k k' : String)
    (v : α) :
    lookupA (setA m k v) k' = if k' = k then some v else lookupA m k' := by
  induction m with
  | nil =>
    by_cases h : k' = k
    · subst h
      simp [setA, lookupA]
    · have h2 : ¬k = k' := fun hh => h hh.symm
      simp [setA, lookupA, h, h2]
  | cons p rest ih =>
    obtain ⟨pk, pv⟩ := p
    by_cases hpk : pk = k
    · subst hpk
      by_cases h : pk = k'
      · subst h
        simp [setA, lookupA]
      · have h2 : ¬k' = pk := fun hh => h hh.symm
        simp [setA, lookupA, h, h2]
    · by_cases h2 : pk = k'
      · subst h2
        simp [setA, lookupA, hpk]
      · simp [setA, lookupA, hpk, h2, ih]

theorem podStatusCheck_cacheOnly (cache : Cache) (key : String)
    (l : List ContainerStatus) :
    cacheOnly (podStatusCheck cache key l).2.2 = true := by
  induction l with
  | nil => simp [podStatusCheck, cacheOnly]
  | cons cs rest ih =>
    simp only [podStatusCheck]
    split
    · simp [cacheOnly]
    · split
      · simp [cacheOnly]
      · split
        · split
          · simp [cacheOnly, Action.isSave, Action.isStore]
          · exact ih
        · exact ih

theorem is_significant_pod_event_cacheOnly (cache : Cache)
    (event_type : String) (pod : Pod) :
    cacheOnly (is_significant_pod_event cache event_type pod).2.2 = true := by
  simp only [is_significant_pod_event]
  split
  · simp [cacheOnly]
  · split
    · exact podStatusCheck_cacheOnly _ _ _
    · simp [cacheOnly]

theorem is_significant_deployment_event_cacheOnly (cache : Cache)
    (event_type : String) (d : Deployment) :
    cacheOnly (is_significant_deployment_event cache event_type d).2.2 = true := by
  simp only [is_significant_deployment_event]
  split
  · simp [cacheOnly]
  · split
    · split
      · simp [cacheOnly, Action.isSave, Action.isStore]
      · split
        · simp [cacheOnly, Action.isSave, Action.isStore]
        · simp [cacheOnly]
    · simp [cacheOnly]

theorem checkpointSavedFirst_no_save (l : List Action)
    (h : l.all (fun a => !a.isSave) = true) :
    checkpointSavedFirst l = true := by
  induction l with
  | nil => rfl
  | cons a rest ih =>
    simp only [List.all_cons, Bool.and_eq_true] at h
    simp only [checkpointSavedFirst, Bool.and_eq_true]
    refine ⟨?_, ih h.2⟩
    split
    · simp only [Bool.not_eq_true']
      rw [List.any_eq_false]
      intro x hx
      have := List.all_eq_true.mp h.2 x hx
      simpa using this
    · rfl

theorem checkpointSavedFirst_append (l₁ l₂ : List Action)
    (h₁ : l₁.all (fun a => !a.isStore) = true)
    (h₂ : l₂.all (fun a => !a.isSave) = true) :
    checkpointSavedFirst (l₁ ++ l₂) = true := by
  induction l₁ with
  | nil => simpa using checkpointSavedFirst_no_save l₂ h₂
  | cons a rest ih =>
    simp only [List.all_cons, Bool.and_eq_true] at h₁
    simp only [List.cons_append, checkpointSavedFirst, Bool.and_eq_true]
    refine ⟨?_, ih h₁.2⟩
    have : a.isStore = false := by simpa using h₁.1
    simp [this]

theorem cacheOnly_no_store (tr : List Action) (h : cacheOnly tr = true) :
    tr.all (fun a => !a.isStore) = true := by
  simp only [cacheOnly, List.all_eq_true, Bool.and_eq_true] at h
  rw [List.all_eq_true]
  intro a ha
  exact (h a ha).2

theorem cacheOnly_no_save (tr : List Action) (h : cacheOnly tr = true) :
    tr.all (fun a => !a.isSave) = true := by
  simp only [cacheOnly, List.all_eq_true, Bool.and_eq_true] at h
  rw [List.all_eq_true]
  intro a ha
  exact (h a ha).1

/-- A watch-step trace of the shape saves, then cache writes, then
stores keeps every checkpoint save before every event write. -/
theorem step_trace_shape (saveTr sigTr storeTr : List Action)
    (hsave : saveTr.all (fun a => !a.isStore) = true)
    (hsig : cacheOnly sigTr = true)
    (hstore : storeTr.all (fun a => !a.isSave) = true) :
    checkpointSavedFirst (saveTr ++ sigTr ++ storeTr) = true := by
  apply checkpointSavedFirst_append
  · rw [List.all_append, Bool.and_eq_true]
    exact ⟨hsave, cacheOnly_no_store _ hsig⟩
  · exact hstore

theorem dbHas_append (db₁ db₂ : EventDB) (cid : Nat) (eid : String) :
    dbHas (db₁ ++ db₂) cid eid = (dbHas db₁ cid eid || dbHas db₂ cid eid) := by
  simp [dbHas, List.any_append]

theorem dbCount_append (db₁ db₂ : EventDB) (cid : Nat) (eid : String) :
    dbCount (db₁ ++ db₂) cid eid = dbCount db₁ cid eid + dbCount db₂ cid eid := by
  simp [dbCount, List.filter_append]

theorem dbHas_false_count_zero (db : EventDB) (cid : Nat) (eid : String)
    (h : dbHas db cid eid = false) : dbCount db cid eid = 0 := by
  induction db with
  | nil => rfl
  | cons r rest ih =>
    simp only [dbHas, List.any_cons, Bool.or_eq_false_iff] at h
    have hr : eventKeyMatch cid eid r = false := h.1
    simp only [dbCount, List.filter_cons, hr]
    exact ih h.2

theorem dbHas_single_build_pod (cn : String) (cid : Nat) (et : String)
    (pod : Pod) :
    dbHas [buildPodEvent cn cid et pod] cid (podEventId cn pod) = true := by
  simp [dbHas, buildPodEvent]

theorem dbHas_single_build_secret (cn : String) (cid : Nat) (et : String)
    (s : Secret) :
    dbHas [buildSecretEvent cn cid et s] cid
      (genericEventId cn "secret" s.metadata) = true := by
  simp [dbHas, buildSecretEvent]

/-- Embeds `(pyKeys d).isEmpty` agrees with `d.isEmpty`. -/
theorem pyKeys_isEmpty {α : Type} (d : List (String × α)) :
    (pyKeys d).isEmpty = d.isEmpty := by
  cases d <;> rfl

/-- Characterization of the deployment significance filter on a
MODIFIED observation whose identity has a cache entry. -/
theorem is_significant_deployment_event_modified (cache : Cache)
    (d : Deployment) (entry : CacheEntry)
    (hentry : lookupA cache
      (pyStr d.metadata.namespace_ ++ ":" ++ d.metadata.name) = some entry) :
    is_significant_deployment_event cache "MODIFIED" d =
      (if d.spec.containers.map Container.image ≠ entry.images.getD [] then
        (true,
         setA cache (pyStr d.metadata.namespace_ ++ ":" ++ d.metadata.name)
           { CacheEntry.empty with
             images := some (d.spec.containers.map Container.image),
             replicas := some d.spec.replicas },
         [Action.cacheWrite (pyStr d.metadata.namespace_ ++ ":" ++ d.metadata.name)])
      else if d.spec.replicas ≠ entry.replicas.getD none then
        (true,
         setA cache (pyStr d.metadata.namespace_ ++ ":" ++ d.metadata.name)
           { CacheEntry.empty with
             images := some (d.spec.containers.map Container.image),
             replicas := some d.spec.replicas },
         [Action.cacheWrite (pyStr d.metadata.namespace_ ++ ":" ++ d.metadata.name)])
      else (false, cache, [])) := by
  simp only [is_significant_deployment_event, if_true]
  rw [hentry]
  simp only [Option.getD_some]
  rw [if_neg (by decide : ¬("MODIFIED" = "ADDED" ∨ "MODIFIED" = "DELETED"))]

/-! ## Claim theorems -/

/-- Claim C4: an HTTP 410 (Gone) error during a watch of some kind
clears the persisted checkpoint for that kind — the next session run
reads no token and passes no resource_version to the stream — while the
checkpoints of every other kind are unchanged; any other error status
leaves the whole checkpoint map intact. -/
theorem claim_C4 (cks : Checkpoints) (kind : String) (status : Nat) :
    (status = 410 →
      resumeToken (watchErrorHandler kind status cks) kind = none ∧
      streamResourceVersionArg (watchErrorHandler kind status cks) kind = none ∧
      ∀ k, k ≠ kind →
        lookupA (watchErrorHandler kind status cks) k = lookupA cks k) ∧
    (status ≠ 410 → watchErrorHandler kind status cks = cks) := by
  constructor
  · intro h
    subst h
    have hres : resumeToken (watchErrorHandler kind 410 cks) kind = none := by
      simp [watchErrorHandler, save_resource_version, resumeToken, lookupA_setA]
    refine ⟨hres, ?_, ?_⟩
    · simp [streamResourceVersionArg, hres, tokenTruthy]
    · intro k hk
      simp [watchErrorHandler, save_resource_version, lookupA_setA, hk]
  · intro h
    simp [watchErrorHandler, h]

/-- Witness for C4 at a concrete checkpoint map: 410 on pods clears
the pods token, preserves the deployments token, and a 500 changes
nothing. -/
theorem claim_C4_witness :
    resumeToken (watchErrorHandler "pods" 410
      [("pods", some "41"), ("deployments", some "9")]) "pods" = none ∧
    lookupA (watchErrorHandler "pods" 410
      [("pods", some "41"), ("deployments", some "9")]) "deployments" =
      lookupA [("pods", some "41"), ("deployments", some "9")] "deployments" ∧
    watchErrorHandler "pods" 500 [("pods", some "41")] = [("pods", some "41")] :=
  ⟨((claim_C4 [("pods", some "41"), ("deployments", some "9")] "pods" 410).1
      rfl).1,
   ((claim_C4 [("pods", some "41"), ("deployments", some "9")] "pods" 410).1
      rfl).2.2 "deployments" (by decide),
   (claim_C4 [("pods", some "41")] "pods" 500).2 (by decide)⟩

/-- Claim C9: a non-410 error leaves the checkpoint map — and hence
the token the next session resumes from — unchanged, and the polling
loop never reconnects immediately: consecutive sync runs are always
separated by a sleep of the (positive) poll interval. -/
theorem claim_C9 :
    (∀ (cks : Checkpoints) (kind : String) (status : Nat), status ≠ 410 →
      watchErrorHandler kind status cks = cks ∧
      streamResourceVersionArg (watchErrorHandler kind status cks) kind =
        streamResourceVersionArg cks kind) ∧
    (∀ (poll_interval n : Nat), 0 < poll_interval →
      syncsSeparatedBySleep (pollLoopTrace poll_interval n) = true ∧
      allSleepsPositive (pollLoopTrace poll_interval n) = true) ∧
    0 < default_poll_interval := by
  refine ⟨?_, ?_, by decide⟩
  · intro cks kind status h
    have heq : watchErrorHandler kind status cks = cks := by
      simp [watchErrorHandler, h]
    exact ⟨heq, by rw [heq]⟩
  · intro p n hp
    constructor
    · induction n with
      | zero => rfl
      | succ m ih => simpa [pollLoopTrace, syncsSeparatedBySleep] using ih
    · induction n with
      | zero => rfl
      | succ m ih => simp [pollLoopTrace, allSleepsPositive, hp, ih]

/-- Witness for C9: a 500 during the pods watch preserves a concrete
checkpoint map, and three observed polling cycles at the default
interval separate all syncs by positive sleeps. -/
theorem claim_C9_witness :
    watchErrorHandler "pods" 500 [("pods", some "41")] = [("pods", some "41")] ∧
    syncsSeparatedBySleep (pollLoopTrace default_poll_interval 3) = true ∧
    allSleepsPositive (pollLoopTrace default_poll_interval 3) = true :=
  ⟨(claim_C9.1 [("pods", some "41")] "pods" 500 (by decide)).1,
   (claim_C9.2.1 default_poll_interval 3 (by decide)).1,
   (claim_C9.2.1 default_poll_interval 3 (by decide)).2⟩

/-- Claim C2: storing the same observation twice — two store calls
producing the same deterministic event_id for the same connection — is
a no-op on the second call and leaves exactly one stored ChangeEvent,
for both the pod store and the generic store (Secret instance). -/
theorem claim_C2 :
    (∀ (cn : String) (db : EventDB) (cid : Nat) (et : String) (pod : Pod),
      store_pod_event cn (store_pod_event cn db cid et pod) cid et pod =
        store_pod_event cn db cid et pod) ∧
    (∀ (cn : String) (db : EventDB) (cid : Nat) (et : String) (s : Secret),
      store_secret_event cn (store_secret_event cn db cid et s) cid et s =
        store_secret_event cn db cid et s) ∧
    (∀ (cn : String) (db : EventDB) (cid : Nat) (et : String) (pod : Pod),
      dbHas db cid (podEventId cn pod) = false →
      dbCount
        (store_pod_event cn (store_pod_event cn db cid et pod) cid et pod)
        cid (podEventId cn pod) = 1) := by
  have podTwice : ∀ (cn : String) (db : EventDB) (cid : Nat) (et : String)
      (pod : Pod),
      store_pod_event cn (store_pod_event cn db cid et pod) cid et pod =
        store_pod_event cn db cid et pod := by
    intro cn db cid et pod
    by_cases h : dbHas db cid (podEventId cn pod) = true
    · simp [store_pod_event, h]
    · have h' : dbHas db cid (podEventId cn pod) = false := by
        simpa using h
      have h1 : store_pod_event cn db cid et pod =
          db ++ [buildPodEvent cn cid et pod] := by
        simp [store_pod_event, h']
      rw [h1]
      simp [store_pod_event, dbHas_append, h', dbHas_single_build_pod]
  refine ⟨podTwice, ?_, ?_⟩
  · intro cn db cid et s
    by_cases h : dbHas db cid (genericEventId cn "secret" s.metadata) = true
    · simp [store_secret_event, h]
    · have h' : dbHas db cid (genericEventId cn "secret" s.metadata) = false := by
        simpa using h
      have h1 : store_secret_event cn db cid et s =
          db ++ [buildSecretEvent cn cid et s] := by
        simp [store_secret_event, h']
      rw [h1]
      simp [store_secret_event, dbHas_append, h', dbHas_single_build_secret]
  · intro cn db cid et pod h
    have h1 : store_pod_event cn db cid et pod =
        db ++ [buildPodEvent cn cid et pod] := by
      simp [store_pod_event, h]
    rw [podTwice, h1, dbCount_append, dbHas_false_count_zero db cid _ h]
    simp [dbCount, eventKeyMatch, buildPodEvent]

/-- Witness for C2: a double store of a concrete significant pod event
into an empty table leaves exactly one matching row. -/
theorem claim_C2_witness :
    dbCount
      (store_pod_event "c"
        (store_pod_event "c" [] 1 "ADDED" crashPodExample) 1 "ADDED"
        crashPodExample)
      1 (podEventId "c" crashPodExample) = 1 :=
  claim_C2.2.2 "c" [] 1 "ADDED" crashPodExample (by decide)

/-- Counterexample to claim C1 as stated: for a concrete MODIFIED pod
observation in CrashLoopBackOff, the step trace saves the checkpoint
before the ChangeEvent write, so the claimed
"store completes before the checkpoint is written" ordering is false
at this observation. -/
theorem claim_C1_counterexample :
    checkpointSavedLast
      (watchPodsStep "c" 1 [] [] [] "MODIFIED" crashPodExample).trace = false ∧
    (watchPodsStep "c" 1 [] [] [] "MODIFIED" crashPodExample).trace =
      [Action.saveCheckpoint "pods" (some "42"),
       Action.storeEvent "c:dev:pod:api-1:42"] := by
  constructor <;> decide

/-- Claim C1 (amended): for every observation processed by the pod and
deployment watch sessions, the persisted continuation token for that
kind is advanced FIRST, before the Significance Filter runs (with its
cache updates) and before any ChangeEvent write: every checkpoint save
in the step trace precedes every event-store write. -/
theorem claim_C1 (cn : String) (cid : Nat) (cks : Checkpoints)
    (cache : Cache) (db : EventDB) (et : String) :
    (∀ pod : Pod,
      checkpointSavedFirst
        (watchPodsStep cn cid cks cache db et pod).trace = true) ∧
    (∀ d : Deployment,
      checkpointSavedFirst
        (watchDeploymentsStep cn cid cks cache db et d).trace = true) := by
  constructor
  · intro pod
    simp only [watchPodsStep]
    apply step_trace_shape
    · split <;> simp [Action.isStore]
    · exact is_significant_pod_event_cacheOnly cache et pod
    · split <;> simp [Action.isSave]
  · intro d
    simp only [watchDeploymentsStep]
    apply step_trace_shape
    · split <;> simp [Action.isStore]
    · exact is_significant_deployment_event_cacheOnly cache et d
    · split <;> simp [Action.isSave]

/-- Counterexample to claim C5 as stated: a concrete ADDED deployment
observation leaves no State Cache entry for its identity (the claimed
"replaced on every observation" would require the entry to hold the
observed summary: images app:1.0, replicas 3). -/
theorem claim_C5_counterexample :
    lookupA (watchDeploymentsStep "c" 1 [] [] [] "ADDED" deployExample10).cache
      "dev:web" = none ∧
    (watchPodsStep "c" 1 [] [] [] "MODIFIED" crashPodExample).cache = [] := by
  constructor <;> decide

/-- Claim C5 (amended): the State Cache entry is not replaced on every
observation.  Pod and deployment ADDED/DELETED observations leave the
cache unchanged; a non-significant MODIFIED deployment observation
leaves it unchanged; and a significant MODIFIED deployment observation
replaces the identity's entry with the new summary (images and
replicas). -/
theorem claim_C5 (cn : String) (cid : Nat) (cks : Checkpoints)
    (cache : Cache) (db : EventDB) :
    (∀ (pod : Pod) (et : String), et = "ADDED" ∨ et = "DELETED" →
      (watchPodsStep cn cid cks cache db et pod).cache = cache) ∧
    (∀ (d : Deployment) (et : String), et = "ADDED" ∨ et = "DELETED" →
      (watchDeploymentsStep cn cid cks cache db et d).cache = cache) ∧
    (∀ d : Deployment,
      ((is_significant_deployment_event cache "MODIFIED" d).1 = false →
        (watchDeploymentsStep cn cid cks cache db "MODIFIED" d).cache = cache) ∧
      ((is_significant_deployment_event cache "MODIFIED" d).1 = true →
        lookupA (watchDeploymentsStep cn cid cks cache db "MODIFIED" d).cache
          (pyStr d.metadata.namespace_ ++ ":" ++ d.metadata.name) =
        some { CacheEntry.empty with
               images := some (d.spec.containers.map Container.image),
               replicas := some d.spec.replicas })) := by
  refine ⟨?_, ?_, ?_⟩
  · intro pod et h
    have hc : (watchPodsStep cn cid cks cache db et pod).cache =
        (is_significant_pod_event cache et pod).2.1 := rfl
    rw [hc]
    simp only [is_significant_pod_event]
    rw [if_pos h]
  · intro d et h
    have hc : (watchDeploymentsStep cn cid cks cache db et d).cache =
        (is_significant_deployment_event cache et d).2.1 := rfl
    rw [hc]
    simp only [is_significant_deployment_event]
    rw [if_pos h]
  · intro d
    have hc : (watchDeploymentsStep cn cid cks cache db "MODIFIED" d).cache =
        (is_significant_deployment_event cache "MODIFIED" d).2.1 := rfl
    have hmod : ¬("MODIFIED" = "ADDED" ∨ "MODIFIED" = "DELETED") := by decide
    by_cases h1 : d.spec.containers.map Container.image =
        ((lookupA cache (pyStr d.metadata.namespace_ ++ ":" ++
          d.metadata.name)).getD CacheEntry.empty).images.getD []
    · by_cases h2 : d.spec.replicas =
          ((lookupA cache (pyStr d.metadata.namespace_ ++ ":" ++
            d.metadata.name)).getD CacheEntry.empty).replicas.getD none
      · have hval : is_significant_deployment_event cache "MODIFIED" d =
            (false, cache, []) := by
          simp only [is_significant_deployment_event, if_true]
          rw [if_neg hmod, if_neg (fun hne => hne h1),
            if_neg (fun hne => hne h2)]
        refine ⟨fun _ => by rw [hc, hval], fun hsig => ?_⟩
        rw [hval] at hsig
        simp at hsig
      · have hval : is_significant_deployment_event cache "MODIFIED" d =
            (true,
             setA cache (pyStr d.metadata.namespace_ ++ ":" ++ d.metadata.name)
               { CacheEntry.empty with
                 images := some (d.spec.containers.map Container.image),
                 replicas := some d.spec.replicas },
             [Action.cacheWrite
               (pyStr d.metadata.namespace_ ++ ":" ++ d.metadata.name)]) := by
          simp only [is_significant_deployment_event, if_true]
          rw [if_neg hmod, if_neg (fun hne => hne h1), if_pos h2]
        refine ⟨fun hsig => ?_, fun _ => ?_⟩
        · rw [hval] at hsig
          simp at hsig
        · rw [hc]
          simp [hval, lookupA_setA]
    · have hval : is_significant_deployment_event cache "MODIFIED" d =
          (true,
           setA cache (pyStr d.metadata.namespace_ ++ ":" ++ d.metadata.name)
             { CacheEntry.empty with
               images := some (d.spec.containers.map Container.image),
               replicas := some d.spec.replicas },
           [Action.cacheWrite
             (pyStr d.metadata.namespace_ ++ ":" ++ d.metadata.name)]) := by
        simp only [is_significant_deployment_event, if_true]
        rw [if_neg hmod, if_pos h1]
      refine ⟨fun hsig => ?_, fun _ => ?_⟩
      · rw [hval] at hsig
        simp at hsig
      · rw [hc]
        simp [hval, lookupA_setA]

/-- Witness for C5 at the spec's scenario inputs: an ADDED pod leaves
an empty cache empty, and the significant image bump replaces the
cached summary with image app:1.1, replicas 3. -/
theorem claim_C5_witness :
    (watchPodsStep "c" 1 [] [] [] "ADDED" crashPodExample).cache = [] ∧
    lookupA
      (watchDeploymentsStep "c" 1 [] cacheExample10 [] "MODIFIED"
        deployExample11).cache "dev:web" =
      some { CacheEntry.empty with
             images := some ["app:1.1"],
             replicas := some (some 3) } :=
  ⟨(claim_C5 "c" 1 [] [] []).1 crashPodExample "ADDED" (Or.inl rfl),
   ((claim_C5 "c" 1 [] cacheExample10 []).2.2 deployExample11).2 (by decide)⟩

/-- Claim C3: a MODIFIED deployment observation whose identity has a
cached summary is significant iff the image list or the replica count
differs from the cached values; when both match, nothing is stored and
the trace holds no event write; when they differ, the event write is
emitted, a fresh table gains exactly the one new row, the row's title
is derived from (kind, transition, name), and the cache entry is
replaced with the new images and replicas. -/
theorem claim_C3 (cn : String) (cid : Nat) (cks : Checkpoints)
    (cache : Cache) (db : EventDB) (d : Deployment)
    (entry : CacheEntry) (ci : List String) (cr : Option Nat)
    (hentry : lookupA cache
      (pyStr d.metadata.namespace_ ++ ":" ++ d.metadata.name) = some entry)
    (himg : entry.images = some ci)
    (hrep : entry.replicas = some cr) :
    ((is_significant_deployment_event cache "MODIFIED" d).1 = true ↔
      (d.spec.containers.map Container.image ≠ ci ∨ d.spec.replicas ≠ cr)) ∧
    ((is_significant_deployment_event cache "MODIFIED" d).1 = false →
      (watchDeploymentsStep cn cid cks cache db "MODIFIED" d).db = db ∧
      (watchDeploymentsStep cn cid cks cache db "MODIFIED" d).trace.all
        (fun a => !a.isStore) = true) ∧
    ((is_significant_deployment_event cache "MODIFIED" d).1 = true →
      Action.storeEvent (deploymentEventId cn d) ∈
        (watchDeploymentsStep cn cid cks cache db "MODIFIED" d).trace ∧
      (dbHas db cid (deploymentEventId cn d) = false →
        (watchDeploymentsStep cn cid cks cache db "MODIFIED" d).db =
          db ++ [buildDeploymentEvent cn cid "MODIFIED" d]) ∧
      (buildDeploymentEvent cn cid "MODIFIED" d).title =
        "[Deployment Updated] " ++ d.metadata.name ∧
      lookupA (watchDeploymentsStep cn cid cks cache db "MODIFIED" d).cache
        (pyStr d.metadata.namespace_ ++ ":" ++ d.metadata.name) =
        some { CacheEntry.empty with
               images := some (d.spec.containers.map Container.image),
               replicas := some d.spec.replicas }) := by
  have hchar := is_significant_deployment_event_modified cache d entry hentry
  have hci : entry.images.getD [] = ci := by rw [himg]; rfl
  have hcr : entry.replicas.getD none = cr := by rw [hrep]; rfl
  rw [hci, hcr] at hchar
  have htitle : (buildDeploymentEvent cn cid "MODIFIED" d).title =
      "[Deployment Updated] " ++ d.metadata.name := by
    simp only [buildDeploymentEvent, deploymentTitle]
    rw [if_neg (by decide : ¬("MODIFIED" = "DELETED")),
      if_neg (by decide : ¬("MODIFIED" = "ADDED"))]
  by_cases h1 : d.spec.containers.map Container.image = ci
  · by_cases h2 : d.spec.replicas = cr
    · rw [if_neg (fun hne => hne h1), if_neg (fun hne => hne h2)] at hchar
      refine ⟨?_, ?_, ?_⟩
      · rw [hchar]
        simp [h1, h2]
      · intro _
        constructor
        · simp [watchDeploymentsStep, hchar]
        · simp only [watchDeploymentsStep, hchar]
          simp only [List.append_nil]
          split <;> simp [Action.isStore]
      · intro hsig
        rw [hchar] at hsig
        simp at hsig
    · rw [if_neg (fun hne => hne h1), if_pos h2] at hchar
      refine ⟨?_, ?_, ?_⟩
      · rw [hchar]
        simp [h1, h2]
      · intro hsig
        rw [hchar] at hsig
        simp at hsig
      · intro _
        refine ⟨?_, ?_, htitle, ?_⟩
        · simp [watchDeploymentsStep, hchar]
        · intro hdb
          simp [watchDeploymentsStep, hchar, store_deployment_event, hdb]
        · simp [watchDeploymentsStep, hchar, lookupA_setA]
  · rw [if_pos h1] at hchar
    refine ⟨?_, ?_, ?_⟩
    · rw [hchar]
      simp [h1]
    · intro hsig
      rw [hchar] at hsig
      simp at hsig
    · intro _
      refine ⟨?_, ?_, htitle, ?_⟩
      · simp [watchDeploymentsStep, hchar]
      · intro hdb
        simp [watchDeploymentsStep, hchar, store_deployment_event, hdb]
      · simp [watchDeploymentsStep, hchar, lookupA_setA]

/-- Witness for C3 at the spec scenario: with the cache holding image
app:1.0 and replicas 3, re-observing the same summary stores nothing;
observing image app:1.1 stores exactly the one event titled
"[Deployment Updated] web". -/
theorem claim_C3_witness :
    (watchDeploymentsStep "c" 1 [] cacheExample10 [] "MODIFIED"
      deployExample10).db = [] ∧
    (watchDeploymentsStep "c" 1 [] cacheExample10 [] "MODIFIED"
      deployExample11).db =
      [] ++ [buildDeploymentEvent "c" 1 "MODIFIED" deployExample11] ∧
    (buildDeploymentEvent "c" 1 "MODIFIED" deployExample11).title =
      "[Deployment Updated] " ++ deployExample11.metadata.name :=
  ⟨((claim_C3 "c" 1 [] cacheExample10 [] deployExample10
      { CacheEntry.empty with images := some ["app:1.0"],
                              replicas := some (some 3) }
      ["app:1.0"] (some 3) (by decide) rfl rfl).2.1 (by decide)).1,
   ((claim_C3 "c" 1 [] cacheExample10 [] deployExample11
      { CacheEntry.empty with images := some ["app:1.0"],
                              replicas := some (some 3) }
      ["app:1.0"] (some 3) (by decide) rfl rfl).2.2 (by decide)).2.1
      (by decide),
   ((claim_C3 "c" 1 [] cacheExample10 [] deployExample11
      { CacheEntry.empty with images := some ["app:1.0"],
                              replicas := some (some 3) }
      ["app:1.0"] (some 3) (by decide) rfl rfl).2.2 (by decide)).2.2.1⟩

/-- Claim C6: secret processing never depends on secret values. Two
secrets with the same metadata, type identifier and key list but
arbitrarily different data values yield the same stored description,
the same significance decision, and in fact the very same watch-step
outcome (checkpoints, cache, event table, trace). -/
theorem claim_C6 (cn : String) (cid : Nat) (cks : Checkpoints)
    (cache : Cache) (db : EventDB) (et : String) (m : ObjectMeta)
    (d₁ d₂ : List (String × String)) (t : String)
    (hkeys : pyKeys d₁ = pyKeys d₂) :
    secretDescriptionOf et ⟨m, d₁, t⟩ = secretDescriptionOf et ⟨m, d₂, t⟩ ∧
    has_secret_key_changes cache et ⟨m, d₁, t⟩ =
      has_secret_key_changes cache et ⟨m, d₂, t⟩ ∧
    watchSecretsStep cn cid cks cache db et ⟨m, d₁, t⟩ =
      watchSecretsStep cn cid cks cache db et ⟨m, d₂, t⟩ := by
  have hempty : d₁.isEmpty = d₂.isEmpty := by
    rw [← pyKeys_isEmpty, hkeys, pyKeys_isEmpty]
  have hdesc : secretDescriptionOf et ⟨m, d₁, t⟩ =
      secretDescriptionOf et ⟨m, d₂, t⟩ := by
    simp only [secretDescriptionOf]
    rw [hempty, hkeys]
  have hchanges : has_secret_key_changes cache et ⟨m, d₁, t⟩ =
      has_secret_key_changes cache et ⟨m, d₂, t⟩ := by
    simp only [has_secret_key_changes]
    rw [hempty, hkeys]
  refine ⟨hdesc, hchanges, ?_⟩
  simp only [watchSecretsStep, store_secret_event, buildSecretEvent, hchanges,
    hdesc]

/-- Witness for C6: two observations of the example secret differing
only in the credential values produce identical step outcomes. -/
theorem claim_C6_witness :
    watchSecretsStep "c" 1 [] [] [] "MODIFIED" (secretExample "u1" "p1") =
      watchSecretsStep "c" 1 [] [] [] "MODIFIED" (secretExample "u2" "p2") :=
  (claim_C6 "c" 1 [] [] [] "MODIFIED" (exampleMeta "dev" "db-creds" "51")
    [("username", "u1"), ("password", "p1")]
    [("username", "u2"), ("password", "p2")] "Opaque" (by decide)).2.2

/-- Claim C7 fails on the code (code bug): the watch path never
consults the configured namespace set — the step outcome is identical
for any two configurations sharing a cluster name, and a pod from a
namespace outside the configured set is processed and stored — even
though `get_namespaces` documents and implements the restriction. -/
theorem claim_C7 :
    (∀ (cn : String) (nss₁ nss₂ : List String) (cid : Nat)
        (cks : Checkpoints) (cache : Cache) (db : EventDB) (et : String)
        (pod : Pod),
      connectorWatchPodsStep ⟨cn, nss₁⟩ cid cks cache db et pod =
        connectorWatchPodsStep ⟨cn, nss₂⟩ cid cks cache db et pod) ∧
    Action.storeEvent "c:dev:pod:api-1:42" ∈
      (connectorWatchPodsStep ⟨"c", ["prod"]⟩ 1 [] [] [] "ADDED"
        crashPodExample).trace ∧
    (connectorWatchPodsStep ⟨"c", ["prod"]⟩ 1 [] [] [] "ADDED"
        crashPodExample).db ≠ [] ∧
    get_namespaces ⟨"c", ["prod"]⟩ ["dev", "prod"] = ["prod"] := by
  refine ⟨fun _ _ _ _ _ _ _ _ _ => rfl, ?_, ?_, ?_⟩ <;> decide

/-- Claim C8: ADDED and DELETED observations are significant and
emitted for every monitored kind — pods, deployments, statefulsets,
daemonsets, services, configmaps, ingresses, roles, rolebindings, and
(non-deny-listed) secrets — while a secret of type
kubernetes.io/service-account-token is skipped entirely, for every
transition kind: no checkpoint save, no cache write, no store. -/
theorem claim_C8 :
    (∀ (cache : Cache) (pod : Pod),
      (is_significant_pod_event cache "ADDED" pod).1 = true ∧
      (is_significant_pod_event cache "DELETED" pod).1 = true) ∧
    (∀ (cache : Cache) (d : Deployment),
      (is_significant_deployment_event cache "ADDED" d).1 = true ∧
      (is_significant_deployment_event cache "DELETED" d).1 = true) ∧
    (∀ (cache : Cache) (w : Workload),
      statefulsetEmitDecision cache "ADDED" w = true ∧
      statefulsetEmitDecision cache "DELETED" w = true ∧
      daemonsetEmitDecision cache "ADDED" w = true ∧
      daemonsetEmitDecision cache "DELETED" w = true) ∧
    (∀ (cache : Cache) (svc : Service),
      serviceEmitDecision cache "ADDED" svc = true ∧
      serviceEmitDecision cache "DELETED" svc = true) ∧
    (∀ (digest : String → String) (cache : Cache) (cm : ConfigMap),
      configmapEmitDecision digest cache "ADDED" cm = true ∧
      configmapEmitDecision digest cache "DELETED" cm = true) ∧
    (∀ (cache : Cache) (ing : Ingress),
      ingressEmitDecision cache "ADDED" ing = true ∧
      ingressEmitDecision cache "DELETED" ing = true) ∧
    (∀ (cn : String) (cks : Checkpoints) (cache : Cache) (r : Role),
      Action.storeEvent (genericEventId cn "role" r.metadata) ∈
        (watchRolesStep cn cks cache "ADDED" r).2.2 ∧
      Action.storeEvent (genericEventId cn "role" r.metadata) ∈
        (watchRolesStep cn cks cache "DELETED" r).2.2) ∧
    (∀ (cn : String) (cks : Checkpoints) (cache : Cache) (rb : RoleBinding),
      Action.storeEvent (genericEventId cn "rolebinding" rb.metadata) ∈
        (watchRoleBindingsStep cn cks cache "ADDED" rb).2.2 ∧
      Action.storeEvent (genericEventId cn "rolebinding" rb.metadata) ∈
        (watchRoleBindingsStep cn cks cache "DELETED" rb).2.2) ∧
    (∀ (cn : String) (cid : Nat) (cks : Checkpoints) (cache : Cache)
        (db : EventDB) (et : String) (m : ObjectMeta)
        (d : List (String × String)),
      watchSecretsStep cn cid cks cache db et
        ⟨m, d, "kubernetes.io/service-account-token"⟩ =
        ⟨cks, cache, db, []⟩) ∧
    (∀ (cn : String) (cid : Nat) (cks : Checkpoints) (cache : Cache)
        (db : EventDB) (s : Secret),
      s.type_ ≠ "kubernetes.io/service-account-token" →
      Action.storeEvent (genericEventId cn "secret" s.metadata) ∈
        (watchSecretsStep cn cid cks cache db "ADDED" s).trace ∧
      Action.storeEvent (genericEventId cn "secret" s.metadata) ∈
        (watchSecretsStep cn cid cks cache db "DELETED" s).trace) := by
  refine ⟨?_, ?_, ?_, ?_, ?_, ?_, ?_, ?_, ?_, ?_⟩
  · intro cache pod
    exact ⟨by simp [is_significant_pod_event],
      by simp [is_significant_pod_event]⟩
  · intro cache d
    exact ⟨by simp [is_significant_deployment_event],
      by simp [is_significant_deployment_event]⟩
  · intro cache w
    exact ⟨by simp [statefulsetEmitDecision],
      by simp [statefulsetEmitDecision],
      by simp [daemonsetEmitDecision],
      by simp [daemonsetEmitDecision]⟩
  · intro cache svc
    exact ⟨by simp [serviceEmitDecision], by simp [serviceEmitDecision]⟩
  · intro digest cache cm
    exact ⟨by simp [configmapEmitDecision], by simp [configmapEmitDecision]⟩
  · intro cache ing
    exact ⟨by simp [ingressEmitDecision], by simp [ingressEmitDecision]⟩
  · intro cn cks cache r
    exact ⟨by simp [watchRolesStep, List.mem_append],
      by simp [watchRolesStep, List.mem_append]⟩
  · intro cn cks cache rb
    exact ⟨by simp [watchRoleBindingsStep, List.mem_append],
      by simp [watchRoleBindingsStep, List.mem_append]⟩
  · intro cn cid cks cache db et m d
    simp [watchSecretsStep]
  · intro cn cid cks cache db s hs
    exact ⟨by simp [watchSecretsStep, hs, List.mem_append],
      by simp [watchSecretsStep, hs, List.mem_append]⟩

/-- Witness for C8: the example non-deny-listed secret's ADDED
observation emits its store action. -/
theorem claim_C8_witness :
    Action.storeEvent
      (genericEventId "c" "secret" (secretExample "u1" "p1").metadata) ∈
      (watchSecretsStep "c" 1 [] [] [] "ADDED" (secretExample "u1" "p1")).trace :=
  (claim_C8.2.2.2.2.2.2.2.2.2 "c" 1 [] [] [] (secretExample "u1" "p1")
    (by decide)).1

/-- Claim C10: Role and RoleBinding observations are stored
unconditionally for every transition kind (ADDED, MODIFIED, DELETED),
with no cached-summary comparison: the step never writes the cache and
its outcome does not depend on the cache at all. -/
theorem claim_C10 :
    (∀ (cn : String) (cks : Checkpoints) (cache : Cache) (et : String)
        (r : Role),
      (et = "ADDED" ∨ et = "MODIFIED" ∨ et = "DELETED") →
      Action.storeEvent (genericEventId cn "role" r.metadata) ∈
        (watchRolesStep cn cks cache et r).2.2) ∧
    (∀ (cn : String) (cks : Checkpoints) (c₁ c₂ : Cache) (et : String)
        (r : Role),
      (watchRolesStep cn cks c₁ et r).1 = (watchRolesStep cn cks c₂ et r).1 ∧
      (watchRolesStep cn cks c₁ et r).2.2 =
        (watchRolesStep cn cks c₂ et r).2.2 ∧
      (watchRolesStep cn cks c₁ et r).2.1 = c₁) ∧
    (∀ (cn : String) (cks : Checkpoints) (cache : Cache) (et : String)
        (rb : RoleBinding),
      (et = "ADDED" ∨ et = "MODIFIED" ∨ et = "DELETED") →
      Action.storeEvent (genericEventId cn "rolebinding" rb.metadata) ∈
        (watchRoleBindingsStep cn cks cache et rb).2.2) ∧
    (∀ (cn : String) (cks : Checkpoints) (c₁ c₂ : Cache) (et : String)
        (rb : RoleBinding),
      (watchRoleBindingsStep cn cks c₁ et rb).1 =
        (watchRoleBindingsStep cn cks c₂ et rb).1 ∧
      (watchRoleBindingsStep cn cks c₁ et rb).2.2 =
        (watchRoleBindingsStep cn cks c₂ et rb).2.2 ∧
      (watchRoleBindingsStep cn cks c₁ et rb).2.1 = c₁) := by
  refine ⟨?_, ?_, ?_, ?_⟩
  · intro cn cks cache et r h
    simp only [watchRolesStep]
    rw [if_pos h]
    simp [List.mem_append]
  · intro cn cks c₁ c₂ et r
    exact ⟨rfl, rfl, rfl⟩
  · intro cn cks cache et rb h
    simp only [watchRoleBindingsStep]
    rw [if_pos h]
    simp [List.mem_append]
  · intro cn cks c₁ c₂ et rb
    exact ⟨rfl, rfl, rfl⟩

/-- Witness for C10: the example Role and RoleBinding MODIFIED
observations emit their store actions. -/
theorem claim_C10_witness :
    Action.storeEvent (genericEventId "c" "role" roleExample.metadata) ∈
      (watchRolesStep "c" [] [] "MODIFIED" roleExample).2.2 ∧
    Action.storeEvent
      (genericEventId "c" "rolebinding" roleBindingExample.metadata) ∈
      (watchRoleBindingsStep "c" [] [] "MODIFIED" roleBindingExample).2.2 :=
  ⟨claim_C10.1 "c" [] [] "MODIFIED" roleExample (Or.inr (Or.inl rfl)),
   claim_C10.2.2.1 "c" [] [] "MODIFIED" roleBindingExample
     (Or.inr (Or.inl rfl))⟩

end PainChain
